import Mathlib

/-!
# Verification of `scripts/setup_glad.py`

A shallow embedding of the GLAD bootstrap script of the Nilos Engine
repository.  The script is a linear orchestrator: it probes for an
already-generated header, optionally prompts the user, ensures the `glad`
Python package is importable (installing it via pip on demand), shells out
to the `glad` generator with a fixed argument list, and reports the
outcome.

The embedding models one run of the script as a pure function of an
environment record `Env` describing everything the outside world feeds the
run: whether the target header exists, what the interactive prompt
returns (an answer string, a keyboard interrupt, or end-of-file), whether
`import glad` succeeds, and the results of the two blocking subprocess
invocations (an exit status, or a keyboard interrupt delivered while
blocked).  The run produces a Python-level result (`return` value of
`main`, or a raised exception) together with a `Trace` recording every
line printed and the argv of each subprocess actually spawned.  The
`__main__` guard of the script is modelled separately as `topLevel`, and
`program` composes the two, yielding the process exit code and the final
trace.
-/

namespace SetupGlad

/-- Result of the blocking `input()` call at the confirmation prompt:
an answer string, a `KeyboardInterrupt` delivered while blocked, or
end-of-file on stdin (Python raises `EOFError`). -/
inductive PromptResult where
  | answer (s : String)
  | interrupted
  | eof
  deriving DecidableEq, Repr

/-- Result of a blocking `subprocess.check_call`: the child's exit status,
or a `KeyboardInterrupt` delivered while blocked on it. -/
inductive CallResult where
  | exit (code : Nat)
  | interrupted
  deriving DecidableEq, Repr

/-- The exceptions that can cross the `main()` boundary in the script:
`KeyboardInterrupt`, `EOFError` (from `input()` at end-of-file), or any
other exception carrying a one-line message. -/
inductive Exc where
  | keyboardInterrupt
  | eofError
  | other (msg : String)
  deriving DecidableEq, Repr

/-- Everything the outside world feeds one run of the script:
`sys.executable`, whether `external/glad/include/glad/glad.h` exists,
what the prompt returns, whether `import glad` succeeds, and the results
of the pip-install and generator subprocess invocations. -/
structure Env where
  pyExe : String
  headerExists : Bool
  prompt : PromptResult
  gladImportable : Bool
  installer : CallResult
  generator : CallResult
  deriving DecidableEq, Repr

/-- Observable effects of a run: the lines printed to stdout, and the
argv of the installer and generator subprocesses (`none` when the
corresponding `subprocess.check_call` was never reached). -/
structure Trace where
  output : List String
  installerArgs : Option (List String)
  generatorArgs : Option (List String)
  deriving DecidableEq, Repr

/-- Result of the Python function `main()`: a `return` (Python's `None`
or an integer), or an exception escaping it. -/
inductive PyResult where
  | ret (code : Option Nat)
  | raised (e : Exc)
  deriving DecidableEq, Repr

/-- The characters Python's `str.strip()` removes by default. -/
def isPySpace (c : Char) : Bool :=
  c == ' ' || c == '\t' || c == '\n' || c == '\r' || c == '\x0b' || c == '\x0c'

/-- Python's `str.strip()`: drop leading and trailing whitespace. -/
def pyStrip (s : String) : String :=
  String.mk (((s.data.dropWhile isPySpace).reverse.dropWhile isPySpace).reverse)

/-- Python's `str.lower()` (ASCII case mapping, which is all the script
compares against). -/
def pyLower (s : String) : String :=
  String.mk (s.data.map Char.toLower)

/-- `os.path.join` on relative POSIX components. -/
def ospJoin (parts : List String) : String :=
  String.intercalate "/" parts

/-- `glad_path = os.path.join("external", "glad")`. -/
def glad_path : String := ospJoin ["external", "glad"]

/-- `glad_header = os.path.join(glad_path, "include", "glad", "glad.h")`. -/
def glad_header : String := ospJoin [glad_path, "include", "glad", "glad.h"]

/-- The `"=" * 60` banner rule. -/
def eqLine : String := String.mk (List.replicate 60 '=')

/-- The four banner lines printed unconditionally at the top of `main`. -/
def bannerLines : List String :=
  [eqLine, "Nilos Engine - GLAD Setup Script", eqLine, ""]

/-- Lines printed when the target header is found. -/
def headerFoundLines : List String :=
  ["✅ GLAD is already set up!", "   Found: " ++ glad_header]

/-- Line printed when the user declines regeneration. -/
def declineLine : String := "Keeping existing GLAD setup."

/-- argv of the installer invocation:
`[sys.executable, "-m", "pip", "install", "glad"]`. -/
def pipArgs (pyExe : String) : List String :=
  [pyExe, "-m", "pip", "install", "glad"]

/-- argv of the generator invocation, the hard-coded `cmd` list of the
script. -/
def gladArgs (pyExe : String) : List String :=
  [pyExe, "-m", "glad",
   "--generator", "c",
   "--spec", "gl",
   "--out-path", glad_path,
   "--api", "gl=3.3"]

/-- Rendering of Python's `CalledProcessError` message for a command and
a non-zero exit status (the `{e}` in the failure print). -/
def cpeMsg (cmd : List String) (code : Nat) : String :=
  "Command " ++ String.intercalate " " cmd
    ++ " returned non-zero exit status " ++ toString code ++ "."

/-- The generation-failure line `❌ Failed to generate GLAD: {e}`. -/
def genFailLine (cmd : List String) (code : Nat) : String :=
  "❌ Failed to generate GLAD: " ++ cpeMsg cmd code

/-- The three `Generated files:` path lines printed on success. -/
def generatedFileLines : List String :=
  ["   - " ++ ospJoin [glad_path, "include", "glad", "glad.h"],
   "   - " ++ ospJoin [glad_path, "include", "KHR", "khrplatform.h"],
   "   - " ++ ospJoin [glad_path, "src", "glad.c"]]

/-- The portion of `main` from `# Generate GLAD` on (lines 51–82 of the
script): print the progress lines, run the generator subprocess, and
either print the success report and return 0, or print the failure report
with the manual-download hint and return 1.  A `KeyboardInterrupt` during
the `check_call` is not caught here (the `except` clause only catches
`CalledProcessError`) and propagates.  The trace it returns holds only
the lines this portion prints; `instArgs` is the installer argv recorded
by the earlier step. -/
def generationStep (env : Env) (out : List String)
    (instArgs : Option (List String)) : PyResult × Trace :=
  let out := out ++ ["", "Generating GLAD files for OpenGL 3.3 Core...", ""]
  let cmd := gladArgs env.pyExe
  match env.generator with
  | .interrupted => (.raised .keyboardInterrupt, ⟨out, instArgs, some cmd⟩)
  | .exit 0 =>
      (.ret (some 0),
       ⟨out ++ ["", "✅ GLAD generated successfully!", "", "Generated files:"]
            ++ generatedFileLines
            ++ ["", "✅ Setup complete! You can now build the project."],
        instArgs, some cmd⟩)
  | .exit (k + 1) =>
      (.ret (some 1),
       ⟨out ++ [genFailLine cmd (k + 1),
                "",
                "Alternative: Download manually from https://glad.dav1d.de/"],
        instArgs, some cmd⟩)

/-- The portion of `main` after the existing-header branch (lines 35–82):
try `import glad`; on `ImportError` run the pip installer, returning 1
with the manual-remediation hint if it exits non-zero; then proceed to
the generation step.  The trace holds only the lines this portion
prints. -/
def restOfMain (env : Env) : PyResult × Trace :=
  if env.gladImportable then
    generationStep env ["✅ GLAD Python package found"] none
  else
    let out := ["⚠️  GLAD Python package not found", "   Installing glad..."]
    let cmd := pipArgs env.pyExe
    match env.installer with
    | .interrupted => (.raised .keyboardInterrupt, ⟨out, some cmd, none⟩)
    | .exit 0 =>
        generationStep env (out ++ ["✅ GLAD Python package installed"])
          (some cmd)
    | .exit (_ + 1) =>
        (.ret (some 1),
         ⟨out ++ ["❌ Failed to install GLAD package",
                  "\nPlease install manually:",
                  "   pip install glad"],
          some cmd, none⟩)

/-- The Python function `main()` (lines 16–82): print the banner, probe
for the target header, and if it exists prompt the user —
`input(...).strip().lower()`; any answer other than `"y"` returns `None`
(Python's bare `return`) after printing the keep-message, with no
subprocess spawned.  Otherwise fall through to `restOfMain`. -/
def main (env : Env) : PyResult × Trace :=
  if env.headerExists then
    match env.prompt with
    | .interrupted =>
        (.raised .keyboardInterrupt, ⟨bannerLines ++ headerFoundLines, none, none⟩)
    | .eof =>
        (.raised .eofError, ⟨bannerLines ++ headerFoundLines, none, none⟩)
    | .answer s =>
        if pyLower (pyStrip s) ≠ "y" then
          (.ret none,
           ⟨bannerLines ++ headerFoundLines ++ [declineLine], none, none⟩)
        else
          let r := restOfMain env
          (r.1, { r.2 with
                  output := bannerLines ++ headerFoundLines ++ [""] ++ r.2.output })
  else
    let r := restOfMain env
    (r.1, { r.2 with output := bannerLines ++ r.2.output })

/-- Python's `str(e)` for the exceptions we model. -/
def excMsg : Exc → String
  | .keyboardInterrupt => "KeyboardInterrupt"
  | .eofError => "EOF when reading a line"
  | .other m => m

/-- The cancellation message printed by the `except KeyboardInterrupt`
handler (`print("\n\nSetup cancelled by user.")`). -/
def cancelLine : String := "\n\nSetup cancelled by user."

/-- The one-line unexpected-error message printed by the
`except Exception` handler (`print(f"\n❌ Unexpected error: {e}")`). -/
def unexpectedLine (e : Exc) : String :=
  "\n❌ Unexpected error: " ++ excMsg e

/-- The `if __name__ == "__main__"` guard (lines 84–93): `sys.exit` with
`main()`'s return value (`None` mapped to 0); `KeyboardInterrupt` is
caught and mapped to exit code 1 with the cancellation message; any other
exception is caught and mapped to exit code 1 with the one-line
unexpected-error message. -/
def topLevel : PyResult × Trace → Nat × Trace
  | (.ret none, t) => (0, t)
  | (.ret (some c), t) => (c, t)
  | (.raised .keyboardInterrupt, t) =>
      (1, { t with output := t.output ++ [cancelLine] })
  | (.raised e, t) =>
      (1, { t with output := t.output ++ [unexpectedLine e] })

/-- One whole process run: `main` wrapped in the `__main__` guard.
Yields the process exit code and the final trace. -/
def program (env : Env) : Nat × Trace :=
  topLevel (main env)

/-- `True` when the `input()` answer, stripped and lowered, is `"y"`. -/
def affirms : PromptResult → Bool
  | .answer s => pyLower (pyStrip s) == "y"
  | _ => false

/-- The run gets past the existing-header branch and reaches the
`import glad` attempt. -/
def reachesImport (env : Env) : Bool :=
  !env.headerExists || affirms env.prompt

/-- The run reaches the generator `subprocess.check_call`. -/
def reachesGeneration (env : Env) : Bool :=
  reachesImport env && (env.gladImportable || env.installer == .exit 0)

/-- The world as the next run of the script sees it: the generator, when
it ran and exited 0, has produced the target header on disk; a run that
spawns no subprocess changes nothing. -/
def worldAfter (env : Env) : Env :=
  if ((program env).2.generatorArgs.isSome && env.generator == .exit 0 : Bool) then
    { env with headerExists := true }
  else
    env

/-! ## Helper lemmas -/

/-- The cancellation message can never coincide with a generation-failure
message: their first characters differ. -/
theorem cancelLine_ne_genFailLine (cmd : List String) (code : Nat) :
    cancelLine ≠ genFailLine cmd code := by
  intro h
  have h2 : cancelLine.data = (genFailLine cmd code).data := congrArg String.data h
  rw [show genFailLine cmd code
        = "❌ Failed to generate GLAD: " ++ cpeMsg cmd code from rfl,
      String.data_append,
      show ("❌ Failed to generate GLAD: ").data
        = '❌' :: " Failed to generate GLAD: ".data from rfl,
      show cancelLine.data = '\n' :: "\nSetup cancelled by user.".data from rfl] at h2
  simp only [List.cons_append, List.cons.injEq] at h2
  exact absurd h2.1 (by decide)

/-- The unexpected-error message can never coincide with the cancellation
message: their second characters differ. -/
theorem unexpectedLine_ne_cancelLine (e : Exc) :
    unexpectedLine e ≠ cancelLine := by
  intro h
  have h2 : (unexpectedLine e).data = cancelLine.data := congrArg String.data h
  rw [show unexpectedLine e = "\n❌ Unexpected error: " ++ excMsg e from rfl,
      String.data_append,
      show ("\n❌ Unexpected error: ").data
        = '\n' :: '❌' :: " Unexpected error: ".data from rfl,
      show cancelLine.data = '\n' :: '\n' :: "Setup cancelled by user.".data from rfl] at h2
  simp only [List.cons_append, List.cons.injEq] at h2
  exact absurd h2.2.1 (by decide)

/-- `topLevel` maps equal `main` results with outputs differing only by a
leading block of lines to the same exit code. -/
theorem topLevel_fst_prepend (r : PyResult) (t : Trace) (pre : List String) :
    (topLevel (r, { t with output := pre ++ t.output })).1 = (topLevel (r, t)).1 := by
  rcases r with ⟨_ | c⟩ | ⟨_ | _ | m⟩ <;> rfl

/-- Lines printed before `main`'s outcome-determining tail pass through
`topLevel` unchanged, in front of whatever `topLevel` appends. -/
theorem topLevel_output_prepend (r : PyResult) (t : Trace) (pre : List String) :
    (topLevel (r, { t with output := pre ++ t.output })).2.output
      = pre ++ (topLevel (r, t)).2.output := by
  rcases r with ⟨_ | c⟩ | ⟨_ | _ | m⟩ <;> simp [topLevel, List.append_assoc]

/-- `topLevel` never records an installer invocation of its own. -/
theorem topLevel_installerArgs (r : PyResult) (t : Trace) :
    (topLevel (r, t)).2.installerArgs = t.installerArgs := by
  rcases r with ⟨_ | c⟩ | ⟨_ | _ | m⟩ <;> rfl

/-- `topLevel` never records a generator invocation of its own. -/
theorem topLevel_generatorArgs (r : PyResult) (t : Trace) :
    (topLevel (r, t)).2.generatorArgs = t.generatorArgs := by
  rcases r with ⟨_ | c⟩ | ⟨_ | _ | m⟩ <;> rfl

/-- `restOfMain` reads neither the header-existence flag nor the prompt
answer. -/
theorem restOfMain_update (env : Env) (b : Bool) (p : PromptResult) :
    restOfMain { env with headerExists := b, prompt := p } = restOfMain env := by
  cases env
  rfl

/-- The hard-coded generator output path evaluates to `external/glad`. -/
theorem glad_path_eq : glad_path = "external/glad" := by decide

/-- A run whose header check succeeded and whose prompt was affirmed
behaves, beyond its extra prompt lines, exactly like the corresponding
run without an existing header: same exit code, same subprocess
invocations, and the same printed tail after the respective openings. -/
theorem affirm_bridge (p s : String) (pr : PromptResult) (imp : Bool)
    (inst gen : CallResult) (hs : pyLower (pyStrip s) = "y") :
    (program ⟨p, true, .answer s, imp, inst, gen⟩).1
      = (program ⟨p, false, pr, imp, inst, gen⟩).1
    ∧ (program ⟨p, true, .answer s, imp, inst, gen⟩).2.installerArgs
      = (program ⟨p, false, pr, imp, inst, gen⟩).2.installerArgs
    ∧ (program ⟨p, true, .answer s, imp, inst, gen⟩).2.generatorArgs
      = (program ⟨p, false, pr, imp, inst, gen⟩).2.generatorArgs
    ∧ (program ⟨p, true, .answer s, imp, inst, gen⟩).2.output
        = bannerLines ++ headerFoundLines ++ [""]
            ++ (topLevel (restOfMain ⟨p, false, pr, imp, inst, gen⟩)).2.output
    ∧ (program ⟨p, false, pr, imp, inst, gen⟩).2.output
        = bannerLines
            ++ (topLevel (restOfMain ⟨p, false, pr, imp, inst, gen⟩)).2.output := by
  have hre : restOfMain ⟨p, true, PromptResult.answer s, imp, inst, gen⟩
      = restOfMain ⟨p, false, pr, imp, inst, gen⟩ :=
    restOfMain_update ⟨p, false, pr, imp, inst, gen⟩ true (PromptResult.answer s)
  rcases hrw : restOfMain ⟨p, false, pr, imp, inst, gen⟩ with ⟨r1, o, ia, ga⟩
  have hE : main ⟨p, true, PromptResult.answer s, imp, inst, gen⟩
      = (r1, ⟨bannerLines ++ headerFoundLines ++ [""] ++ o, ia, ga⟩) := by
    simp [main, hs, hre, hrw]
  have hN : main ⟨p, false, pr, imp, inst, gen⟩
      = (r1, ⟨bannerLines ++ o, ia, ga⟩) := by
    simp [main, hrw]
  refine ⟨?_, ?_, ?_, ?_, ?_⟩
  · simp only [program]
    rw [hE, hN]
    exact (topLevel_fst_prepend r1 ⟨o, ia, ga⟩
        (bannerLines ++ headerFoundLines ++ [""])).trans
      (topLevel_fst_prepend r1 ⟨o, ia, ga⟩ bannerLines).symm
  · simp only [program]
    rw [hE, hN, topLevel_installerArgs, topLevel_installerArgs]
  · simp only [program]
    rw [hE, hN, topLevel_generatorArgs, topLevel_generatorArgs]
  · simp only [program]
    rw [hE]
    exact topLevel_output_prepend r1 ⟨o, ia, ga⟩
      (bannerLines ++ headerFoundLines ++ [""])
  · simp only [program]
    rw [hN]
    exact topLevel_output_prepend r1 ⟨o, ia, ga⟩ bannerLines

/-- In a header-absent run whose dependency step succeeds, the generator
is spawned with the fixed argv and its exit status decides the process
exit code. -/
theorem rest_reached (p : String) (imp : Bool) (inst gen : CallResult)
    (hok : imp = true ∨ (imp = false ∧ inst = .exit 0)) (pr : PromptResult) :
    (program ⟨p, false, pr, imp, inst, gen⟩).2.generatorArgs = some (gladArgs p)
    ∧ (gen = .exit 0 → (program ⟨p, false, pr, imp, inst, gen⟩).1 = 0)
    ∧ (∀ k, gen = .exit (k + 1) →
        (program ⟨p, false, pr, imp, inst, gen⟩).1 = 1) := by
  rcases hok with h | ⟨h, h2⟩
  · subst h
    cases gen with
    | exit c =>
        cases c <;> simp [program, main, restOfMain, generationStep, topLevel]
    | interrupted =>
        simp [program, main, restOfMain, generationStep, topLevel]
  · subst h; subst h2
    cases gen with
    | exit c =>
        cases c <;> simp [program, main, restOfMain, generationStep, topLevel]
    | interrupted =>
        simp [program, main, restOfMain, generationStep, topLevel]

/-! ## Claims -/

/-- C1: in every run where the target header does not exist, `import glad`
succeeds, and the generator subprocess exits 0, the process exit code is 0
and the three expected output paths
(`external/glad/include/glad/glad.h`, `external/glad/include/KHR/khrplatform.h`,
`external/glad/src/glad.c`) are printed. -/
theorem c1 (env : Env)
    (hH : env.headerExists = false)
    (hI : env.gladImportable = true)
    (hG : env.generator = .exit 0) :
    (program env).1 = 0
    ∧ (∀ l ∈ generatedFileLines, l ∈ (program env).2.output)
    ∧ generatedFileLines
        = ["   - external/glad/include/glad/glad.h",
           "   - external/glad/include/KHR/khrplatform.h",
           "   - external/glad/src/glad.c"] := by
  obtain ⟨p, hed, pr, imp, inst, gen⟩ := env
  dsimp only at hH hI hG
  subst hH hI hG
  refine ⟨rfl, ?_, by decide⟩
  intro l hl
  simp [program, main, restOfMain, generationStep, topLevel, List.mem_append]
  tauto

/-- Witness for C1: a concrete run with no existing header, an importable
dependency, and a successful generator. -/
theorem c1_witness :
    ((⟨"python3", false, .answer "", true, .exit 0, .exit 0⟩ : Env).headerExists = false
      ∧ (⟨"python3", false, .answer "", true, .exit 0, .exit 0⟩ : Env).gladImportable = true
      ∧ (⟨"python3", false, .answer "", true, .exit 0, .exit 0⟩ : Env).generator = .exit 0)
    ∧ ((program ⟨"python3", false, .answer "", true, .exit 0, .exit 0⟩).1 = 0
       ∧ (∀ l ∈ generatedFileLines,
            l ∈ (program ⟨"python3", false, .answer "", true, .exit 0, .exit 0⟩).2.output)
       ∧ generatedFileLines
           = ["   - external/glad/include/glad/glad.h",
              "   - external/glad/include/KHR/khrplatform.h",
              "   - external/glad/src/glad.c"]) :=
  ⟨⟨rfl, rfl, rfl⟩, c1 _ rfl rfl rfl⟩

/-- C2: in every run where the target header exists and the prompt answer,
stripped and lowercased, is not `"y"` (e.g. `"n"`, `""`, `"no"`), the
process exits 0, the keep-message is printed, and neither the installer
nor the generator subprocess is spawned. -/
theorem c2 (env : Env) (s : String)
    (hH : env.headerExists = true)
    (hp : env.prompt = .answer s)
    (hs : pyLower (pyStrip s) ≠ "y") :
    (program env).1 = 0
    ∧ declineLine ∈ (program env).2.output
    ∧ (program env).2.installerArgs = none
    ∧ (program env).2.generatorArgs = none := by
  obtain ⟨p, hed, pr, imp, inst, gen⟩ := env
  dsimp only at hH hp
  subst hH hp
  refine ⟨?_, ?_, ?_, ?_⟩ <;> simp [program, main, topLevel, hs]

/-- Witness for C2: a concrete run where the header exists and the user
answers `"no"`. -/
theorem c2_witness :
    ((⟨"python3", true, .answer "no", true, .exit 0, .exit 0⟩ : Env).headerExists = true
      ∧ (⟨"python3", true, .answer "no", true, .exit 0, .exit 0⟩ : Env).prompt = .answer "no"
      ∧ pyLower (pyStrip "no") ≠ "y")
    ∧ ((program ⟨"python3", true, .answer "no", true, .exit 0, .exit 0⟩).1 = 0
       ∧ declineLine ∈ (program ⟨"python3", true, .answer "no", true, .exit 0, .exit 0⟩).2.output
       ∧ (program ⟨"python3", true, .answer "no", true, .exit 0, .exit 0⟩).2.installerArgs = none
       ∧ (program ⟨"python3", true, .answer "no", true, .exit 0, .exit 0⟩).2.generatorArgs = none) :=
  ⟨⟨rfl, rfl, by decide⟩, c2 _ "no" rfl rfl (by decide)⟩

/-- C3: in every run that reaches the dependency check with `import glad`
failing and the installer subprocess exiting non-zero, the process exits 1,
the manual-remediation hint `pip install glad` is printed, and the
generator is never spawned. -/
theorem c3 (env : Env) (k : Nat)
    (hr : reachesImport env = true)
    (hI : env.gladImportable = false)
    (hins : env.installer = .exit (k + 1)) :
    (program env).1 = 1
    ∧ "   pip install glad" ∈ (program env).2.output
    ∧ (program env).2.generatorArgs = none := by
  obtain ⟨p, hed, pr, imp, inst, gen⟩ := env
  dsimp only at hr hI hins
  subst hI hins
  cases hed with
  | false =>
      refine ⟨rfl, ?_, rfl⟩
      simp [program, main, restOfMain, topLevel]
  | true =>
      cases pr with
      | answer s =>
          simp [reachesImport, affirms] at hr
          refine ⟨?_, ?_, ?_⟩ <;>
            simp [program, main, restOfMain, topLevel, hr]
      | interrupted => simp [reachesImport, affirms] at hr
      | eof => simp [reachesImport, affirms] at hr

/-- Witness for C3: a concrete run with no header, a missing dependency,
and an installer exiting with status 1. -/
theorem c3_witness :
    (reachesImport ⟨"python3", false, .answer "", false, .exit 1, .exit 0⟩ = true
      ∧ (⟨"python3", false, .answer "", false, .exit 1, .exit 0⟩ : Env).gladImportable = false
      ∧ (⟨"python3", false, .answer "", false, .exit 1, .exit 0⟩ : Env).installer = .exit (0 + 1))
    ∧ ((program ⟨"python3", false, .answer "", false, .exit 1, .exit 0⟩).1 = 1
       ∧ "   pip install glad"
           ∈ (program ⟨"python3", false, .answer "", false, .exit 1, .exit 0⟩).2.output
       ∧ (program ⟨"python3", false, .answer "", false, .exit 1, .exit 0⟩).2.generatorArgs = none) :=
  ⟨⟨rfl, rfl, rfl⟩, c3 _ 0 rfl rfl rfl⟩

/-- C4: in every run that reaches the dependency step with the dependency
importable (or installed successfully) and the generator subprocess
exiting non-zero, the process exits 1 and the manual-download fallback
hint is printed, together with the generation-failure line. -/
theorem c4 (env : Env) (k : Nat)
    (hr : reachesImport env = true)
    (hok : env.gladImportable = true
         ∨ (env.gladImportable = false ∧ env.installer = .exit 0))
    (hG : env.generator = .exit (k + 1)) :
    (program env).1 = 1
    ∧ "Alternative: Download manually from https://glad.dav1d.de/"
        ∈ (program env).2.output
    ∧ genFailLine (gladArgs env.pyExe) (k + 1) ∈ (program env).2.output := by
  obtain ⟨p, hed, pr, imp, inst, gen⟩ := env
  dsimp only at hr hok hG
  subst hG
  cases hed with
  | false =>
      rcases hok with h | ⟨h, hins⟩
      · subst h
        refine ⟨rfl, ?_, ?_⟩ <;>
          simp [program, main, restOfMain, generationStep, topLevel]
      · subst h; subst hins
        refine ⟨rfl, ?_, ?_⟩ <;>
          simp [program, main, restOfMain, generationStep, topLevel]
  | true =>
      cases pr with
      | answer s =>
          simp [reachesImport, affirms] at hr
          rcases hok with h | ⟨h, hins⟩
          · subst h
            refine ⟨?_, ?_, ?_⟩ <;>
              simp [program, main, restOfMain, generationStep, topLevel, hr]
          · subst h; subst hins
            refine ⟨?_, ?_, ?_⟩ <;>
              simp [program, main, restOfMain, generationStep, topLevel, hr]
      | interrupted => simp [reachesImport, affirms] at hr
      | eof => simp [reachesImport, affirms] at hr

/-- Witness for C4: a concrete run with no header, an importable
dependency, and a generator exiting with status 2. -/
theorem c4_witness :
    (reachesImport ⟨"python3", false, .answer "", true, .exit 0, .exit 2⟩ = true
      ∧ ((⟨"python3", false, .answer "", true, .exit 0, .exit 2⟩ : Env).gladImportable = true
         ∨ ((⟨"python3", false, .answer "", true, .exit 0, .exit 2⟩ : Env).gladImportable = false
            ∧ (⟨"python3", false, .answer "", true, .exit 0, .exit 2⟩ : Env).installer = .exit 0))
      ∧ (⟨"python3", false, .answer "", true, .exit 0, .exit 2⟩ : Env).generator = .exit (1 + 1))
    ∧ ((program ⟨"python3", false, .answer "", true, .exit 0, .exit 2⟩).1 = 1
       ∧ "Alternative: Download manually from https://glad.dav1d.de/"
           ∈ (program ⟨"python3", false, .answer "", true, .exit 0, .exit 2⟩).2.output
       ∧ genFailLine (gladArgs "python3") (1 + 1)
           ∈ (program ⟨"python3", false, .answer "", true, .exit 0, .exit 2⟩).2.output) :=
  ⟨⟨rfl, Or.inl rfl, rfl⟩, c4 _ 1 rfl (Or.inl rfl) rfl⟩

/-- C5: in every run where a keyboard interrupt is delivered while blocked
on the prompt, the installer subprocess, or the generator subprocess, the
process exits 1 and prints the cancellation message, which can never
coincide with a generation-failure message. -/
theorem c5 (env : Env)
    (h : (env.headerExists = true ∧ env.prompt = .interrupted)
       ∨ (reachesImport env = true ∧ env.gladImportable = false
            ∧ env.installer = .interrupted)
       ∨ (reachesGeneration env = true ∧ env.generator = .interrupted)) :
    (program env).1 = 1
    ∧ cancelLine ∈ (program env).2.output
    ∧ (∀ cmd code, cancelLine ≠ genFailLine cmd code) := by
  have hdist : ∀ cmd code, cancelLine ≠ genFailLine cmd code :=
    cancelLine_ne_genFailLine
  obtain ⟨p, hed, pr, imp, inst, gen⟩ := env
  dsimp only at h
  rcases h with ⟨h1, h2⟩ | ⟨h1, h2, h3⟩ | ⟨h1, h2⟩
  · subst h1 h2
    exact ⟨rfl, by simp [program, main, topLevel], hdist⟩
  · subst h2 h3
    cases hed with
    | false =>
        exact ⟨rfl, by simp [program, main, restOfMain, topLevel], hdist⟩
    | true =>
        cases pr with
        | answer s =>
            simp [reachesImport, affirms] at h1
            exact ⟨by simp [program, main, restOfMain, topLevel, h1],
                   by simp [program, main, restOfMain, topLevel, h1], hdist⟩
        | interrupted => simp [reachesImport, affirms] at h1
        | eof => simp [reachesImport, affirms] at h1
  · subst h2
    cases hed with
    | false =>
        cases imp with
        | true =>
            exact ⟨rfl,
                   by simp [program, main, restOfMain, generationStep, topLevel],
                   hdist⟩
        | false =>
            simp [reachesGeneration, reachesImport] at h1
            subst h1
            exact ⟨rfl,
                   by simp [program, main, restOfMain, generationStep, topLevel],
                   hdist⟩
    | true =>
        cases pr with
        | answer s =>
            cases imp with
            | true =>
                simp [reachesGeneration, reachesImport, affirms] at h1
                exact ⟨by simp [program, main, restOfMain, generationStep, topLevel, h1],
                       by simp [program, main, restOfMain, generationStep, topLevel, h1],
                       hdist⟩
            | false =>
                simp [reachesGeneration, reachesImport, affirms] at h1
                obtain ⟨h1a, h1b⟩ := h1
                subst h1b
                exact ⟨by simp [program, main, restOfMain, generationStep, topLevel, h1a],
                       by simp [program, main, restOfMain, generationStep, topLevel, h1a],
                       hdist⟩
        | interrupted => simp [reachesGeneration, reachesImport, affirms] at h1
        | eof => simp [reachesGeneration, reachesImport, affirms] at h1

/-- Witness for C5: a concrete run interrupted at the confirmation
prompt. -/
theorem c5_witness :
    (((⟨"python3", true, .interrupted, true, .exit 0, .exit 0⟩ : Env).headerExists = true
       ∧ (⟨"python3", true, .interrupted, true, .exit 0, .exit 0⟩ : Env).prompt = .interrupted))
    ∧ ((program ⟨"python3", true, .interrupted, true, .exit 0, .exit 0⟩).1 = 1
       ∧ cancelLine ∈ (program ⟨"python3", true, .interrupted, true, .exit 0, .exit 0⟩).2.output
       ∧ (∀ cmd code, cancelLine ≠ genFailLine cmd code)) :=
  ⟨⟨rfl, rfl⟩, c5 _ (Or.inl ⟨rfl, rfl⟩)⟩

/-- C6: in every run where the target header exists and the prompt answer,
stripped and lowercased, is `"y"` (so `"y"` or `"Y"`), the remainder of
the run behaves exactly as in the run without an existing header: same
exit code, same installer and generator invocations, and the same printed
lines after the respective opening blocks. -/
theorem c6 (env : Env) (s : String) (hs : pyLower (pyStrip s) = "y") :
    (program { env with headerExists := true, prompt := .answer s }).1
      = (program { env with headerExists := false }).1
    ∧ (program { env with headerExists := true, prompt := .answer s }).2.installerArgs
      = (program { env with headerExists := false }).2.installerArgs
    ∧ (program { env with headerExists := true, prompt := .answer s }).2.generatorArgs
      = (program { env with headerExists := false }).2.generatorArgs
    ∧ ∃ tail,
        (program { env with headerExists := true, prompt := .answer s }).2.output
          = bannerLines ++ headerFoundLines ++ [""] ++ tail
        ∧ (program { env with headerExists := false }).2.output
          = bannerLines ++ tail := by
  obtain ⟨p, hed, pr, imp, inst, gen⟩ := env
  obtain ⟨h1, h2, h3, h4, h5⟩ := affirm_bridge p s pr imp inst gen hs
  exact ⟨h1, h2, h3,
    ⟨(topLevel (restOfMain ⟨p, false, pr, imp, inst, gen⟩)).2.output, h4, h5⟩⟩

/-- Witness for C6: a concrete environment with the user answering
`"Y"`. -/
theorem c6_witness :
    pyLower (pyStrip "Y") = "y"
    ∧ ((program { (⟨"python3", false, .eof, true, .exit 0, .exit 0⟩ : Env) with
          headerExists := true, prompt := .answer "Y" }).1
        = (program { (⟨"python3", false, .eof, true, .exit 0, .exit 0⟩ : Env) with
             headerExists := false }).1
       ∧ (program { (⟨"python3", false, .eof, true, .exit 0, .exit 0⟩ : Env) with
            headerExists := true, prompt := .answer "Y" }).2.installerArgs
          = (program { (⟨"python3", false, .eof, true, .exit 0, .exit 0⟩ : Env) with
               headerExists := false }).2.installerArgs
       ∧ (program { (⟨"python3", false, .eof, true, .exit 0, .exit 0⟩ : Env) with
            headerExists := true, prompt := .answer "Y" }).2.generatorArgs
          = (program { (⟨"python3", false, .eof, true, .exit 0, .exit 0⟩ : Env) with
               headerExists := false }).2.generatorArgs
       ∧ ∃ tail,
           (program { (⟨"python3", false, .eof, true, .exit 0, .exit 0⟩ : Env) with
              headerExists := true, prompt := .answer "Y" }).2.output
             = bannerLines ++ headerFoundLines ++ [""] ++ tail
           ∧ (program { (⟨"python3", false, .eof, true, .exit 0, .exit 0⟩ : Env) with
                headerExists := false }).2.output
             = bannerLines ++ tail) :=
  ⟨by decide, c6 _ "Y" (by decide)⟩

/-- C7: every run that reaches the generation step spawns the generator
with exactly the fixed argument set — generator `c`, spec `gl`, output
path `external/glad`, api `gl=3.3` — and interprets its exit status as
0 = success (process exit 0), non-zero = failure (process exit 1). -/
theorem c7 (env : Env) (hr : reachesGeneration env = true) :
    (program env).2.generatorArgs = some (gladArgs env.pyExe)
    ∧ gladArgs env.pyExe
        = [env.pyExe, "-m", "glad", "--generator", "c", "--spec", "gl",
           "--out-path", "external/glad", "--api", "gl=3.3"]
    ∧ (env.generator = .exit 0 → (program env).1 = 0)
    ∧ (∀ k, env.generator = .exit (k + 1) → (program env).1 = 1) := by
  obtain ⟨p, hed, pr, imp, inst, gen⟩ := env
  have hcmd : gladArgs p
      = [p, "-m", "glad", "--generator", "c", "--spec", "gl",
         "--out-path", "external/glad", "--api", "gl=3.3"] := by
    simp [gladArgs, glad_path_eq]
  have mkok : ∀ (b : Bool) (i : CallResult),
      (b = true ∨ i = CallResult.exit 0) →
      (b = true ∨ (b = false ∧ i = CallResult.exit 0)) := by
    intro b i h
    cases b
    · rcases h with h | h
      · exact absurd h (by simp)
      · exact Or.inr ⟨rfl, h⟩
    · exact Or.inl rfl
  cases hed with
  | false =>
      simp only [reachesGeneration, reachesImport, Bool.not_false, Bool.true_or,
        Bool.true_and, Bool.or_eq_true, beq_iff_eq] at hr
      obtain ⟨h1, h2, h3⟩ := rest_reached p imp inst gen (mkok imp inst hr) pr
      exact ⟨h1, hcmd, h2, h3⟩
  | true =>
      cases pr with
      | answer s =>
          simp only [reachesGeneration, reachesImport, affirms, Bool.not_true,
            Bool.false_or, Bool.and_eq_true, Bool.or_eq_true, beq_iff_eq] at hr
          obtain ⟨hs, hok⟩ := hr
          obtain ⟨b1, -, b3, -, -⟩ := affirm_bridge p s PromptResult.eof imp inst gen hs
          obtain ⟨h1, h2, h3⟩ :=
            rest_reached p imp inst gen (mkok imp inst hok) PromptResult.eof
          exact ⟨b3.trans h1, hcmd,
                 fun h => b1.trans (h2 h),
                 fun k h => b1.trans (h3 k h)⟩
      | interrupted => simp [reachesGeneration, reachesImport, affirms] at hr
      | eof => simp [reachesGeneration, reachesImport, affirms] at hr

/-- Witness for C7: a concrete run with no header and an importable
dependency reaches the generation step. -/
theorem c7_witness :
    reachesGeneration ⟨"python3", false, .eof, true, .exit 0, .exit 0⟩ = true
    ∧ ((program ⟨"python3", false, .eof, true, .exit 0, .exit 0⟩).2.generatorArgs
        = some (gladArgs "python3")
       ∧ gladArgs "python3"
           = ["python3", "-m", "glad", "--generator", "c", "--spec", "gl",
              "--out-path", "external/glad", "--api", "gl=3.3"]
       ∧ ((⟨"python3", false, .eof, true, .exit 0, .exit 0⟩ : Env).generator = .exit 0
            → (program ⟨"python3", false, .eof, true, .exit 0, .exit 0⟩).1 = 0)
       ∧ (∀ k, (⟨"python3", false, .eof, true, .exit 0, .exit 0⟩ : Env).generator
              = .exit (k + 1)
            → (program ⟨"python3", false, .eof, true, .exit 0, .exit 0⟩).1 = 1)) :=
  ⟨rfl, c7 _ rfl⟩

/-- C8: running the script twice in succession with the target header
existing and the user declining both times is idempotent: the declined
run has exit code 0 and no side effects, so the world is unchanged and
the second run is literally the same run with the same behaviour. -/
theorem c8 (env : Env) (s : String)
    (hH : env.headerExists = true)
    (hp : env.prompt = .answer s)
    (hs : pyLower (pyStrip s) ≠ "y") :
    worldAfter env = env
    ∧ program (worldAfter env) = program env
    ∧ (program env).1 = 0
    ∧ (program env).2.installerArgs = none
    ∧ (program env).2.generatorArgs = none := by
  obtain ⟨p, hed, pr, imp, inst, gen⟩ := env
  dsimp only at hH hp
  subst hH hp
  have h1 : worldAfter ⟨p, true, PromptResult.answer s, imp, inst, gen⟩
      = ⟨p, true, PromptResult.answer s, imp, inst, gen⟩ := by
    simp [worldAfter, program, main, topLevel, hs]
  refine ⟨h1, by rw [h1], ?_, ?_, ?_⟩ <;> simp [program, main, topLevel, hs]

/-- Witness for C8: a concrete declined run with the header present. -/
theorem c8_witness :
    ((⟨"python3", true, .answer "n", true, .exit 0, .exit 0⟩ : Env).headerExists = true
      ∧ (⟨"python3", true, .answer "n", true, .exit 0, .exit 0⟩ : Env).prompt = .answer "n"
      ∧ pyLower (pyStrip "n") ≠ "y")
    ∧ (worldAfter ⟨"python3", true, .answer "n", true, .exit 0, .exit 0⟩
        = ⟨"python3", true, .answer "n", true, .exit 0, .exit 0⟩
       ∧ program (worldAfter ⟨"python3", true, .answer "n", true, .exit 0, .exit 0⟩)
           = program ⟨"python3", true, .answer "n", true, .exit 0, .exit 0⟩
       ∧ (program ⟨"python3", true, .answer "n", true, .exit 0, .exit 0⟩).1 = 0
       ∧ (program ⟨"python3", true, .answer "n", true, .exit 0, .exit 0⟩).2.installerArgs = none
       ∧ (program ⟨"python3", true, .answer "n", true, .exit 0, .exit 0⟩).2.generatorArgs = none) :=
  ⟨⟨rfl, rfl, by decide⟩, c8 _ "n" rfl rfl (by decide)⟩

/-- C9: every exception other than a keyboard interrupt escaping `main`
is caught by the outermost handler, which exits with code 1 and appends
exactly one line — the one-line unexpected-error description — which can
never coincide with the cancellation message. -/
theorem c9 (r : PyResult) (t : Trace) (e : Exc)
    (hr : r = .raised e) (he : e ≠ .keyboardInterrupt) :
    (topLevel (r, t)).1 = 1
    ∧ (topLevel (r, t)).2.output = t.output ++ [unexpectedLine e]
    ∧ unexpectedLine e ≠ cancelLine := by
  subst hr
  cases e with
  | keyboardInterrupt => exact absurd rfl he
  | eofError => exact ⟨rfl, rfl, unexpectedLine_ne_cancelLine _⟩
  | other m => exact ⟨rfl, rfl, unexpectedLine_ne_cancelLine _⟩

/-- Witness for C9: the end-of-file exception raised at the prompt,
reaching the top level with an empty trace. -/
theorem c9_witness :
    ((PyResult.raised .eofError) = PyResult.raised .eofError
      ∧ Exc.eofError ≠ Exc.keyboardInterrupt)
    ∧ ((topLevel (PyResult.raised .eofError, ⟨[], none, none⟩)).1 = 1
       ∧ (topLevel (PyResult.raised .eofError, ⟨[], none, none⟩)).2.output
           = ([] : List String) ++ [unexpectedLine .eofError]
       ∧ unexpectedLine .eofError ≠ cancelLine) :=
  ⟨⟨rfl, by decide⟩, c9 _ ⟨[], none, none⟩ .eofError rfl (by decide)⟩

/-- C10: in every run where the target header exists and standard input
is exhausted at the prompt (`input()` raises `EOFError`), the run does
not default to a decline: the keep-message is never printed, no
subprocess is spawned, and the process exits 1 with the unexpected-error
message. -/
theorem c10 (env : Env)
    (hH : env.headerExists = true)
    (hp : env.prompt = .eof) :
    (program env).1 = 1
    ∧ unexpectedLine .eofError ∈ (program env).2.output
    ∧ declineLine ∉ (program env).2.output
    ∧ (program env).2.installerArgs = none
    ∧ (program env).2.generatorArgs = none := by
  obtain ⟨p, hed, pr, imp, inst, gen⟩ := env
  dsimp only at hH hp
  subst hH hp
  have hout : (program ⟨p, true, PromptResult.eof, imp, inst, gen⟩).2.output
      = bannerLines ++ headerFoundLines ++ [unexpectedLine .eofError] := rfl
  refine ⟨rfl, ?_, ?_, rfl, rfl⟩
  · rw [hout]; decide
  · rw [hout]; decide

/-- Witness for C10: a concrete run with the header present and stdin
exhausted at the prompt. -/
theorem c10_witness :
    ((⟨"python3", true, .eof, true, .exit 0, .exit 0⟩ : Env).headerExists = true
      ∧ (⟨"python3", true, .eof, true, .exit 0, .exit 0⟩ : Env).prompt = .eof)
    ∧ ((program ⟨"python3", true, .eof, true, .exit 0, .exit 0⟩).1 = 1
       ∧ unexpectedLine .eofError
           ∈ (program ⟨"python3", true, .eof, true, .exit 0, .exit 0⟩).2.output
       ∧ declineLine ∉ (program ⟨"python3", true, .eof, true, .exit 0, .exit 0⟩).2.output
       ∧ (program ⟨"python3", true, .eof, true, .exit 0, .exit 0⟩).2.installerArgs = none
       ∧ (program ⟨"python3", true, .eof, true, .exit 0, .exit 0⟩).2.generatorArgs = none) :=
  ⟨⟨rfl, rfl⟩, c10 _ rfl rfl⟩

end SetupGlad
